import Mathlib

/-!
Shallow embedding of the notebook
`Traffic-Accident-Injury-Predictor/TrafficAccidentInjuryPrediction.ipynb`.

The notebook is a linear sequence of cells: load a CSV, derive date columns
with `pd.to_datetime(..., errors=coerce)`, preprocess every column
(median or most-frequent imputation, standard scaling, one-hot encoding),
split 80/20 with random_state 42, fit a linear regression, a decision tree
and a random forest on the training split, compute RMSE values, and dump
the random-forest pipeline with joblib.

Two layers are embedded here:

1. a statement-level trace of the notebook (`notebookSteps`): one record per
   executed assignment, recording which previously bound datasets it reads,
   which model it fits, which model it evaluates and how, which model it
   serializes, and which `random_state` it passes to a stochastic library
   call;

2. the column-level semantics of the library primitives the notebook calls
   (`SimpleImputer` with median and most_frequent strategies, `StandardScaler`,
   `OneHotEncoder` with handle_unknown=ignore, and the date coercion),
   as executable functions over `ℚ`-valued and generic ordered columns.
-/

namespace TrafficAccident

/-- The three regression models trained by the notebook: `LinearRegression`,
`DecisionTreeRegressor(random_state=42)` and `RandomForestRegressor(random_state=42)`. -/
inductive ModelKind
  | linReg
  | treeReg
  | randomForest
  deriving DecidableEq

/-- The datasets bound by the notebook cells: `accidentsData` (the loaded CSV),
`accidentsData_prepared` (output of `preprocessing.fit_transform`), the two
halves of the `train_test_split`, the training features `accidentsTrain`,
the training labels `accidentsTrain_labels`, and the prediction arrays. -/
inductive DataRef
  | accidentsData
  | accidentsDataPrepared
  | trainSet
  | testSet
  | accidentsTrain
  | accidentsTrainLabels
  | predictions
  | predictionsRf
  deriving DecidableEq

/-- How an RMSE number is computed in the notebook: either
`root_mean_squared_error` on the training predictions, or
`cross_val_score(..., scoring="neg_root_mean_squared_error", cv=folds)`. -/
inductive EvalMethod
  | trainRmse
  | crossValRmse (folds : Nat)
  deriving DecidableEq

/-- One executed notebook statement: the datasets it reads, the model it fits
(if any), the RMSE evaluation it performs (if any), the model pipeline it
serializes to disk (if any), whether the library call it makes consumes a
random seed, and the `random_state` argument passed at that call site. -/
structure Stmt where
  reads : List DataRef
  fits : Option ModelKind
  evals : Option (ModelKind × EvalMethod)
  saves : Option ModelKind
  stochastic : Bool
  randomState : Option Nat
  deriving DecidableEq

/-- Cell 1: `accidentsData = loadData()` reads the CSV from disk and binds the
first dataset; it reads no previously bound dataset. -/
def loadStmt : Stmt := ⟨[], none, none, none, false, none⟩

/-- Cell 2: `accidentsData.info()`. -/
def infoStmt : Stmt := ⟨[DataRef.accidentsData], none, none, none, false, none⟩

/-- Cell 3: `pd.to_datetime(accidentsData[crash_date], errors=coerce)`, the
derived `crash_year`, `crash_month`, `crash_day_of_week` columns, and the
`drop` of the other injury columns; rebinds `accidentsData`. -/
def dateTransformStmt : Stmt := ⟨[DataRef.accidentsData], none, none, none, false, none⟩

/-- Cell 5: construction of `num_pipeline` and `cat_pipeline`; touches no data. -/
def pipelinesStmt : Stmt := ⟨[], none, none, none, false, none⟩

/-- Cell 7: `preprocessing = make_column_transformer(...)`; touches no data. -/
def columnTransformerStmt : Stmt := ⟨[], none, none, none, false, none⟩

/-- Cell 8: `accidentsData_prepared = preprocessing.fit_transform(accidentsData)`. -/
def fitTransformStmt : Stmt := ⟨[DataRef.accidentsData], none, none, none, false, none⟩

/-- Cell 9: wrapping `accidentsData_prepared.toarray()` in a DataFrame with
`accidentsData.index`; rebinds `accidentsData_prepared`. -/
def wrapDataFrameStmt : Stmt :=
  ⟨[DataRef.accidentsDataPrepared, DataRef.accidentsData], none, none, none, false, none⟩

/-- Cell 10: `train_set, test_set = train_test_split(accidentsData_prepared,
test_size=0.2, random_state=42)`; the split shuffles, so it is stochastic,
and it is seeded with 42. -/
def splitStmt : Stmt := ⟨[DataRef.accidentsDataPrepared], none, none, none, true, some 42⟩

/-- Cell 10: `accidentsTrain = train_set.drop("pipeline-1__injuries_total", axis=1)`. -/
def dropTargetStmt : Stmt := ⟨[DataRef.trainSet], none, none, none, false, none⟩

/-- Cell 10: `accidentsTrain_labels = train_set["pipeline-1__injuries_total"].copy()`. -/
def copyLabelsStmt : Stmt := ⟨[DataRef.trainSet], none, none, none, false, none⟩

/-- Cell 13: `lin_reg = make_pipeline(preprocessing, LinearRegression())` and
`lin_reg.fit(accidentsTrain, accidentsTrain_labels)`; ordinary least squares is
deterministic, so no seed is involved. -/
def linFitStmt : Stmt :=
  ⟨[DataRef.accidentsTrain, DataRef.accidentsTrainLabels],
    some ModelKind.linReg, none, none, false, none⟩

/-- Cell 13: `predictions = lin_reg.predict(accidentsTrain)`. -/
def linPredictStmt : Stmt := ⟨[DataRef.accidentsTrain], none, none, none, false, none⟩

/-- Cell 14: `lin_rmse = root_mean_squared_error(accidentsTrain_labels, predictions)`. -/
def linRmseStmt : Stmt :=
  ⟨[DataRef.accidentsTrainLabels, DataRef.predictions],
    none, some (ModelKind.linReg, EvalMethod.trainRmse), none, false, none⟩

/-- Cell 16: `tree_reg = make_pipeline(preprocessing,
DecisionTreeRegressor(random_state=42))` and
`tree_reg.fit(accidentsTrain, accidentsTrain_labels)`. -/
def treeFitStmt : Stmt :=
  ⟨[DataRef.accidentsTrain, DataRef.accidentsTrainLabels],
    some ModelKind.treeReg, none, none, true, some 42⟩

/-- Cell 16: `predictions = tree_reg.predict(accidentsTrain)`. -/
def treePredictStmt : Stmt := ⟨[DataRef.accidentsTrain], none, none, none, false, none⟩

/-- Cell 16: `tree_rmse = root_mean_squared_error(accidentsTrain_labels, predictions)`. -/
def treeRmseStmt : Stmt :=
  ⟨[DataRef.accidentsTrainLabels, DataRef.predictions],
    none, some (ModelKind.treeReg, EvalMethod.trainRmse), none, false, none⟩

/-- Cell 17: `tree_rmses = -cross_val_score(tree_reg, accidentsTrain,
accidentsTrain_labels, scoring="neg_root_mean_squared_error", cv=10)`; the
cloned estimator inside carries random_state 42. -/
def treeCrossValStmt : Stmt :=
  ⟨[DataRef.accidentsTrain, DataRef.accidentsTrainLabels],
    none, some (ModelKind.treeReg, EvalMethod.crossValRmse 10), none, true, some 42⟩

/-- Cell 19: `full_pipeline = Pipeline([("preprocessing", preprocessing),
("random_forest", RandomForestRegressor(random_state=42))])` and
`full_pipeline.fit(accidentsTrain, accidentsTrain_labels)`. -/
def forestFitStmt : Stmt :=
  ⟨[DataRef.accidentsTrain, DataRef.accidentsTrainLabels],
    some ModelKind.randomForest, none, none, true, some 42⟩

/-- Cell 19: `predictions_rf = full_pipeline.predict(accidentsTrain)`. -/
def forestPredictStmt : Stmt := ⟨[DataRef.accidentsTrain], none, none, none, false, none⟩

/-- Cell 19: `rmse_rf = root_mean_squared_error(accidentsTrain_labels, predictions_rf)`. -/
def forestRmseStmt : Stmt :=
  ⟨[DataRef.accidentsTrainLabels, DataRef.predictionsRf],
    none, some (ModelKind.randomForest, EvalMethod.trainRmse), none, false, none⟩

/-- Cell 21: `joblib.dump(full_pipeline, "Traffic_Accident_Injury_Predictor_Model.pkl")`;
`full_pipeline` is the random-forest pipeline, serialized unconditionally. -/
def dumpStmt : Stmt := ⟨[], none, none, some ModelKind.randomForest, false, none⟩

/-- The executed statements of the notebook, in cell order. -/
def notebookSteps : List Stmt :=
  [loadStmt, infoStmt, dateTransformStmt, pipelinesStmt, columnTransformerStmt,
   fitTransformStmt, wrapDataFrameStmt, splitStmt, dropTargetStmt, copyLabelsStmt,
   linFitStmt, linPredictStmt, linRmseStmt,
   treeFitStmt, treePredictStmt, treeRmseStmt, treeCrossValStmt,
   forestFitStmt, forestPredictStmt, forestRmseStmt, dumpStmt]

/-- The models fitted by the notebook, in order. -/
def fittedModels : List ModelKind := notebookSteps.filterMap Stmt.fits

/-- The RMSE evaluations performed by the notebook, in order. -/
def evalSteps : List (ModelKind × EvalMethod) := notebookSteps.filterMap Stmt.evals

/-- The model pipeline the notebook serializes to
`Traffic_Accident_Injury_Predictor_Model.pkl` (the first and only `joblib.dump`). -/
def savedPipeline : Option ModelKind := (notebookSteps.filterMap Stmt.saves).head?

/-- Whether an evaluation method is a cross-validated one. -/
def isCrossVal : EvalMethod → Bool
  | EvalMethod.trainRmse => false
  | EvalMethod.crossValRmse _ => true

/-- Whether the notebook computes a cross-validated RMSE for model `m`. -/
def crossValidated (m : ModelKind) : Bool :=
  evalSteps.any (fun e => decide (e.1 = m) && isCrossVal e.2)

/-- Modelled from the spec words "serializes the best pipeline": the model
whose RMSE value is lowest among the three (for comparison with what the code
actually serializes). -/
def bestByRmse (rmse : ModelKind → ℚ) : ModelKind :=
  if rmse ModelKind.linReg ≤ rmse ModelKind.treeReg ∧
      rmse ModelKind.linReg ≤ rmse ModelKind.randomForest then ModelKind.linReg
  else if rmse ModelKind.treeReg ≤ rmse ModelKind.randomForest then ModelKind.treeReg
  else ModelKind.randomForest

/-- A concrete assignment of RMSE values: the training RMSE of the linear
regression and of the random forest as printed by the notebook run, and a
training RMSE of 0 for the unconstrained decision tree. -/
def exampleRmse : ModelKind → ℚ
  | ModelKind.linReg => 5631651089104425 / 10 ^ 16
  | ModelKind.treeReg => 0
  | ModelKind.randomForest => 19576105105886066 / 10 ^ 17

/-- The seeds actually consumed by the stochastic library calls of a notebook
run, given the ambient entropy `ambient` that would seed any call not given an
explicit random_state. -/
def effectiveSeeds (ambient : Nat → Nat) : List Nat :=
  notebookSteps.enum.filterMap
    (fun p => if p.2.stochastic then some (p.2.randomState.getD (ambient p.1)) else none)

/-- Arithmetic mean of a rational column (0 for the empty column, an artifact
of rational division by zero). -/
def listMean (xs : List ℚ) : ℚ := xs.sum / xs.length

/-- Population variance (ddof 0), which is the variance `StandardScaler`
computes at fit time. -/
def popVariance (xs : List ℚ) : ℚ :=
  ((xs.map fun x => (x - listMean xs) ^ 2).sum) / xs.length

/-- Ascending sort of a rational column, as numpy sorts before taking a median. -/
def sortQ (xs : List ℚ) : List ℚ := List.insertionSort (· ≤ ·) xs

/-- Median as numpy computes it: the middle element of the ascending sort when
the length is odd, the mean of the two middle elements when it is even. -/
def listMedian (xs : List ℚ) : ℚ :=
  let s := sortQ xs
  if s.length % 2 = 1 then s.getD (s.length / 2) 0
  else (s.getD (s.length / 2 - 1) 0 + s.getD (s.length / 2) 0) / 2

/-- The non-missing entries of a possibly-missing column, in order. -/
def someEntries {α : Type} (col : List (Option α)) : List α := col.filterMap id

/-- `SimpleImputer(strategy="median")` fitted and applied to one numeric
column: a column that is entirely missing is dropped at fit time; otherwise
every missing entry is replaced by the median of the non-missing entries and
every non-missing entry is kept unchanged. -/
def medianImpute (col : List (Option ℚ)) : List ℚ :=
  if col.all Option.isNone then []
  else col.map fun o => o.getD (listMedian (someEntries col))

/-- `StandardScaler` applied to the column it was fitted on, with the centre
taken from the column and the scale σ supplied explicitly: faithfully, σ is
the square root of the population variance of the column (supplied as a
parameter because a square root need not be rational). -/
def standardScaleWith (xs : List ℚ) (σ : ℚ) : List ℚ :=
  xs.map fun x => (x - listMean xs) / σ

/-- `num_pipeline` of the notebook on one numeric column: median imputation
followed by standard scaling. -/
def numPipeline (col : List (Option ℚ)) (σ : ℚ) : List ℚ :=
  standardScaleWith (medianImpute col) σ

/-- The `pipeline-1__injuries_total` column of `accidentsData_prepared`: the
loaded `injuries_total` column after median imputation and standard scaling.
`accidentsTrain_labels` holds, for the accident in row r of the prepared data
(for each r selected into the 80% training split), entry r of this column. -/
def preparedInjuriesTotal (col : List (Option ℚ)) (σ : ℚ) : List ℚ :=
  numPipeline col σ

/-- Ascending sort of category values, as `np.unique` sorts them. The encoder
and imputer are generic in the value type, which only needs a linear order. -/
def sortCats {α : Type} [LinearOrder α] (xs : List α) : List α :=
  List.insertionSort (· ≤ ·) xs

/-- `SimpleImputer(strategy="most_frequent")` fit value: among the distinct
values of the column in ascending order, the first one of maximal
multiplicity (ties are broken towards the smallest value, as the sklearn
documentation states); `none` for an empty column. -/
def mostFrequent {α : Type} [LinearOrder α] (xs : List α) : Option α :=
  List.argmax (fun c => xs.count c) (sortCats xs.dedup)

/-- `SimpleImputer(strategy="most_frequent")` fitted and applied to one
categorical column: a column that is entirely missing is dropped at fit time;
otherwise every missing entry is replaced by the most frequent non-missing
value and every non-missing entry is kept unchanged. -/
def modeImpute {α : Type} [LinearOrder α] (col : List (Option α)) : List α :=
  match mostFrequent (someEntries col) with
  | none => []
  | some m => col.map fun o => o.getD m

/-- `OneHotEncoder` fit on one column: the categories are the distinct values
of the column in ascending order. -/
def fitCategories {α : Type} [LinearOrder α] (xs : List α) : List α :=
  sortCats xs.dedup

/-- `OneHotEncoder(handle_unknown="ignore")` transform of one value against
the fitted category list: one indicator entry per category, and a value
outside the category list yields all zeros instead of raising an error. -/
def oneHot {α : Type} [DecidableEq α] (cats : List α) (v : α) : List ℚ :=
  cats.map fun c => if c = v then 1 else 0

/-- The components the notebook extracts from a parsed `crash_date` value:
`dt.year`, `dt.month` and `dt.dayofweek`. They are rationals here because the
derived pandas columns are numeric (they become float as soon as one missing
date puts a NaN in them), which is what routes them into `num_pipeline`. -/
structure CrashDate where
  year : ℚ
  month : ℚ
  dayOfWeek : ℚ
  deriving DecidableEq

/-- `pd.to_datetime(..., errors="coerce")` on one value, where `parse` is the
underlying dateutil parser: with `errors="coerce"` an unparseable value
becomes missing (NaT) instead of raising an error. -/
def toDatetimeCoerce (parse : String → Option CrashDate) (s : String) :
    Option CrashDate :=
  parse s

/-- The derived `crash_year` column: `dt.year`, missing where the date is NaT. -/
def crashYearColumn (parse : String → Option CrashDate) (dates : List String) :
    List (Option ℚ) :=
  dates.map fun s => (toDatetimeCoerce parse s).map CrashDate.year

/-- The derived `crash_month` column: `dt.month`, missing where the date is NaT. -/
def crashMonthColumn (parse : String → Option CrashDate) (dates : List String) :
    List (Option ℚ) :=
  dates.map fun s => (toDatetimeCoerce parse s).map CrashDate.month

/-- The derived `crash_day_of_week` column: `dt.dayofweek`, missing where the
date is NaT. -/
def crashDayOfWeekColumn (parse : String → Option CrashDate) (dates : List String) :
    List (Option ℚ) :=
  dates.map fun s => (toDatetimeCoerce parse s).map CrashDate.dayOfWeek

/-- A concrete parser for the C10 witness: it recognizes a single date string. -/
def exampleParse : String → Option CrashDate :=
  fun s => if s = "2020-01-01" then some ⟨2020, 1, 2⟩ else none

end TrafficAccident

namespace TrafficAccident

/-- Claim C1, counterexample: the notebook serializes `full_pipeline` (the
random-forest pipeline) unconditionally, with no comparison of RMSE values; at
the concrete RMSE assignment `exampleRmse` (training RMSE 0 for the decision
tree, the printed values for the other two) the lowest-RMSE model is the
decision tree, so the serialized pipeline is not the best one. -/
theorem c1_counterexample :
    savedPipeline ≠ some (bestByRmse exampleRmse) := by
  have h1 : ¬ (exampleRmse ModelKind.linReg ≤ exampleRmse ModelKind.treeReg ∧
      exampleRmse ModelKind.linReg ≤ exampleRmse ModelKind.randomForest) := by
    rw [not_and_or]
    exact Or.inl (by norm_num [exampleRmse])
  have h2 : exampleRmse ModelKind.treeReg ≤ exampleRmse ModelKind.randomForest := by
    norm_num [exampleRmse]
  have hbest : bestByRmse exampleRmse = ModelKind.treeReg := by
    simp [bestByRmse, h1, h2]
  rw [hbest]
  decide

/-- Claim C1, amended: the pipeline serialized to
`Traffic_Accident_Injury_Predictor_Model.pkl` is the random-forest pipeline,
serialized unconditionally; it coincides with the lowest-RMSE model exactly
when the RMSE of the random forest is strictly below the RMSE of the other two
models. -/
theorem c1_saved_pipeline (rmse : ModelKind → ℚ)
    (hlin : rmse ModelKind.randomForest < rmse ModelKind.linReg)
    (htree : rmse ModelKind.randomForest < rmse ModelKind.treeReg) :
    savedPipeline = some ModelKind.randomForest ∧
      bestByRmse rmse = ModelKind.randomForest := by
  have h1 : ¬ (rmse ModelKind.linReg ≤ rmse ModelKind.treeReg ∧
      rmse ModelKind.linReg ≤ rmse ModelKind.randomForest) :=
    fun h => absurd hlin (not_lt.mpr h.2)
  have h2 : ¬ rmse ModelKind.treeReg ≤ rmse ModelKind.randomForest := not_le.mpr htree
  exact ⟨rfl, by simp [bestByRmse, h1, h2]⟩

/-- Witness for C1 amended, at a concrete RMSE assignment where the random
forest has the strictly lowest RMSE. -/
theorem c1_witness :
    savedPipeline = some ModelKind.randomForest ∧
      bestByRmse (fun m => if m = ModelKind.randomForest then (1 : ℚ) else 2) =
        ModelKind.randomForest :=
  c1_saved_pipeline (fun m => if m = ModelKind.randomForest then (1 : ℚ) else 2)
    (by decide) (by decide)

/-- Claim C2, counterexample: the claim says a cross-validated RMSE is computed
for every one of the three models, but the notebook computes no cross-validated
score for the linear regression (nor for the random forest): the only
`cross_val_score` call is on `tree_reg`. -/
theorem c2_counterexample : crossValidated ModelKind.linReg = false := by decide

/-- Claim C2, amended: a cross-validated RMSE (10-fold) is computed only for
the decision tree regressor; the linear regression and the random forest are
evaluated only by their training-set RMSE, and each of the three models does
get a training-set RMSE. -/
theorem c2_cross_validation :
    crossValidated ModelKind.treeReg = true ∧
      crossValidated ModelKind.linReg = false ∧
      crossValidated ModelKind.randomForest = false ∧
      (ModelKind.treeReg, EvalMethod.crossValRmse 10) ∈ evalSteps ∧
      (ModelKind.linReg, EvalMethod.trainRmse) ∈ evalSteps ∧
      (ModelKind.treeReg, EvalMethod.trainRmse) ∈ evalSteps ∧
      (ModelKind.randomForest, EvalMethod.trainRmse) ∈ evalSteps := by decide

/-- Claim C7: exactly three models are fitted — the linear regression, the
decision tree and the random forest, in that order — and every fitting
statement reads exactly the training features and the training labels. -/
theorem c7_three_models :
    fittedModels = [ModelKind.linReg, ModelKind.treeReg, ModelKind.randomForest] ∧
      ∀ s ∈ notebookSteps, s.fits.isSome = true →
        DataRef.accidentsTrain ∈ s.reads ∧ DataRef.accidentsTrainLabels ∈ s.reads := by
  decide

/-- Witness for C7, at the linear-regression fitting statement. -/
theorem c7_witness :
    DataRef.accidentsTrain ∈ linFitStmt.reads ∧
      DataRef.accidentsTrainLabels ∈ linFitStmt.reads :=
  c7_three_models.2 linFitStmt (by decide) (by decide)

/-- Claim C8: no statement of the notebook ever reads `test_set` after the
split; in particular every model fit, prediction and RMSE computation reads
only training-split data. -/
theorem c8_test_set_unused :
    ∀ s ∈ notebookSteps, DataRef.testSet ∉ s.reads := by decide

/-- Witness for C8, at the random-forest RMSE statement. -/
theorem c8_witness : DataRef.testSet ∉ forestRmseStmt.reads :=
  c8_test_set_unused forestRmseStmt (by decide)

/-- Claim C9: every stochastic library call of the notebook (the train/test
split, the decision-tree fit, the cross-validation of the seeded tree, and the
random-forest fit) is given random_state 42, and consequently the list of
seeds consumed by a run does not depend on the ambient entropy: the analysis
is deterministic. -/
theorem c9_deterministic :
    (∀ s ∈ notebookSteps, s.stochastic = true → s.randomState = some 42) ∧
      ∀ a b : Nat → Nat, effectiveSeeds a = effectiveSeeds b :=
  ⟨by decide, fun _ _ => rfl⟩

/-- Witness for C9, at the train/test split statement. -/
theorem c9_witness : splitStmt.randomState = some 42 :=
  c9_deterministic.1 splitStmt (by decide) (by decide)

end TrafficAccident

namespace TrafficAccident

/-- Membership in the non-missing entries of a column. -/
lemma mem_someEntries {α : Type} {col : List (Option α)} {a : α} :
    a ∈ someEntries col ↔ some a ∈ col := by
  simp [someEntries, List.mem_filterMap]

/-- A column that is not entirely missing has a non-missing entry. -/
lemma someEntries_ne_nil {α : Type} {col : List (Option α)}
    (h : col.all Option.isNone = false) : someEntries col ≠ [] := by
  rw [List.all_eq_false] at h
  obtain ⟨o, ho, hno⟩ := h
  cases o with
  | none => simp at hno
  | some a => exact List.ne_nil_of_mem (mem_someEntries.mpr ho)

/-- On a nonempty list, `mostFrequent` returns an element of the list of
maximal multiplicity. -/
lemma mostFrequent_spec {α : Type} [LinearOrder α] {xs : List α} (h : xs ≠ []) :
    ∃ m, mostFrequent xs = some m ∧ m ∈ xs ∧
      ∀ c ∈ xs, xs.count c ≤ xs.count m := by
  have hmem : ∀ {c : α}, c ∈ xs ↔ c ∈ sortCats xs.dedup := by
    intro c
    simp only [sortCats]
    rw [(List.perm_insertionSort _ _).mem_iff, List.mem_dedup]
  obtain ⟨a, ha⟩ := List.exists_mem_of_ne_nil xs h
  have hnil : sortCats xs.dedup ≠ [] := List.ne_nil_of_mem (hmem.mp ha)
  cases hmf : mostFrequent xs with
  | none =>
    have hmf2 : List.argmax (fun c => xs.count c) (sortCats xs.dedup) = none := hmf
    exact absurd (List.argmax_eq_none.mp hmf2) hnil
  | some m =>
    have hmf2 : m ∈ List.argmax (fun c => xs.count c) (sortCats xs.dedup) := by
      rw [Option.mem_def]
      exact hmf
    refine ⟨m, rfl, hmem.mpr (List.argmax_mem hmf2), ?_⟩
    intro c hc
    exact List.le_of_mem_argmax (hmem.mp hc) hmf2

/-- A value outside the fitted categories is encoded as the all-zero vector. -/
lemma oneHot_of_not_mem {α : Type} [DecidableEq α] :
    ∀ (cats : List α) (v : α), v ∉ cats →
      oneHot cats v = List.replicate cats.length 0
  | [], _, _ => rfl
  | c :: rest, v, h => by
    have hcv : ¬ c = v := fun hc => h (hc ▸ List.mem_cons_self c rest)
    have hrest : v ∉ rest := fun hr => h (List.mem_cons_of_mem _ hr)
    simp only [oneHot, List.map_cons, if_neg hcv, List.length_cons,
      List.replicate_succ]
    exact congrArg (List.cons 0) (oneHot_of_not_mem rest v hrest)

/-- A value among the fitted categories (with no duplicate category) is encoded
as the indicator vector of its position. -/
lemma oneHot_of_mem {α : Type} [DecidableEq α] :
    ∀ (cats : List α) (v : α), cats.Nodup → v ∈ cats →
      oneHot cats v = (List.replicate cats.length 0).set (cats.indexOf v) 1
  | [], v, _, hv => absurd hv (List.not_mem_nil v)
  | c :: rest, v, hnd, hv => by
    rcases eq_or_ne c v with hcv | hcv
    · subst hcv
      have hrest : c ∉ rest := (List.nodup_cons.mp hnd).1
      simp only [oneHot, List.map_cons, if_pos rfl, List.length_cons,
        List.replicate_succ, List.indexOf_cons_self, List.set]
      exact congrArg (List.cons 1) (oneHot_of_not_mem rest c hrest)
    · have hvrest : v ∈ rest := by
        cases List.mem_cons.mp hv with
        | inl h => exact absurd h.symm hcv
        | inr h => exact h
      have hnd2 : rest.Nodup := (List.nodup_cons.mp hnd).2
      simp only [oneHot, List.map_cons, if_neg hcv, List.length_cons,
        List.replicate_succ]
      rw [List.indexOf_cons_ne _ hcv, Nat.succ_eq_add_one]
      show (0 : ℚ) :: oneHot rest v =
        (0 :: List.replicate rest.length 0).set (rest.indexOf v + 1) 1
      rw [List.set]
      exact congrArg (List.cons 0) (oneHot_of_mem rest v hnd2 hvrest)

/-- The fitted categories form a duplicate-free list. -/
lemma fitCategories_nodup {α : Type} [LinearOrder α] (xs : List α) :
    (fitCategories xs).Nodup :=
  (List.perm_insertionSort _ _).nodup_iff.mpr (List.nodup_dedup xs)

/-- Sum of a column after subtracting a centre and dividing by a scale. -/
lemma sum_map_sub_div (xs : List ℚ) (μ σ : ℚ) :
    (xs.map fun x => (x - μ) / σ).sum = (xs.sum - xs.length * μ) / σ := by
  induction xs with
  | nil => simp
  | cons a l ih =>
    simp only [List.map_cons, List.sum_cons, ih, List.length_cons]
    push_cast
    ring

/-- Sum of squares of a column after subtracting a centre and dividing by a
scale. -/
lemma sum_map_sq_div (xs : List ℚ) (μ σ : ℚ) :
    (xs.map fun x => ((x - μ) / σ) ^ 2).sum =
      (xs.map fun x => (x - μ) ^ 2).sum / σ ^ 2 := by
  induction xs with
  | nil => simp
  | cons a l ih =>
    simp only [List.map_cons, List.sum_cons, ih]
    ring

end TrafficAccident

namespace TrafficAccident

/-- Claim C3, counterexample: the claim says the training target of each
training-set accident equals the raw `injuries_total` value of the loaded
dataset, but the labels are taken from `accidentsData_prepared`, where the
`injuries_total` column has already been median-imputed and standard-scaled.
On the column with raw values 0 and 2 the fitted scale is 1 (the population
variance is 1), and the prepared label of row 0 is -1, not its raw value 0. -/
theorem c3_counterexample :
    (1 : ℚ) ^ 2 = popVariance (medianImpute [some 0, some 2]) ∧
      someEntries [some (0 : ℚ), some 2] = [0, 2] ∧
      (preparedInjuriesTotal [some 0, some 2] 1)[0]? = some ((-1 : ℚ)) ∧
      (-1 : ℚ) ≠ 0 := by
  refine ⟨by norm_num [popVariance, medianImpute, listMean, someEntries],
    by decide, ?_, by norm_num⟩
  have h0 : preparedInjuriesTotal [some 0, some 2] 1 = [-1, 1] := by
    norm_num [preparedInjuriesTotal, numPipeline, standardScaleWith, medianImpute,
      listMean, someEntries]
  rw [h0]
  rfl

/-- Claim C3, amended: the training target associated with the accident in row
r of the prepared data is the standard-scaled value of that accident in the
`injuries_total` column — the raw value minus the column mean after
imputation, divided by the fitted scale σ — not the raw injury count itself. -/
theorem c3_training_labels (col : List (Option ℚ)) (σ : ℚ) (r : Nat) (x : ℚ)
    (hmiss : col.all Option.isNone = false)
    (_hσ2 : σ ^ 2 = popVariance (medianImpute col))
    (hr : col[r]? = some (some x)) :
    (preparedInjuriesTotal col σ)[r]? =
      some ((x - listMean (medianImpute col)) / σ) := by
  have himp : (medianImpute col)[r]? = some x := by
    rw [medianImpute, if_neg (by simp [hmiss]), List.getElem?_map, hr]
    rfl
  rw [preparedInjuriesTotal, numPipeline, standardScaleWith, List.getElem?_map, himp]
  rfl

/-- Witness for C3 amended: on the column with raw values 0 and 2 and fitted
scale 1, the prepared label of row 1 (raw value 2) is 1. -/
theorem c3_witness :
    (preparedInjuriesTotal [some 0, some 2] 1)[1]? = some 1 := by
  have h := c3_training_labels [some 0, some 2] 1 1 2 (by decide)
    (by norm_num [popVariance, medianImpute, listMean, someEntries]) (by decide)
  rw [h]
  norm_num [listMean, medianImpute, someEntries]

/-- Claim C4: in a numeric column every missing entry is imputed by the median
of the non-missing entries, and in a categorical column every missing entry is
imputed by a most frequent non-missing value (an element of the column whose
multiplicity is maximal). -/
theorem c4_imputation {α : Type} [LinearOrder α]
    (ncol : List (Option ℚ)) (ccol : List (Option α)) (i j : Nat)
    (hn : ncol.all Option.isNone = false) (hc : ccol.all Option.isNone = false)
    (hni : ncol[i]? = some none) (hcj : ccol[j]? = some none) :
    (medianImpute ncol)[i]? = some (listMedian (someEntries ncol)) ∧
      ∃ m, mostFrequent (someEntries ccol) = some m ∧
        (modeImpute ccol)[j]? = some m ∧
        ∀ c ∈ someEntries ccol,
          (someEntries ccol).count c ≤ (someEntries ccol).count m := by
  constructor
  · rw [medianImpute, if_neg (by simp [hn]), List.getElem?_map, hni]
    rfl
  · obtain ⟨m, hm, _, hmax⟩ := mostFrequent_spec (someEntries_ne_nil hc)
    refine ⟨m, hm, ?_, hmax⟩
    simp only [modeImpute, hm]
    rw [List.getElem?_map, hcj]
    rfl

/-- Witness for C4: a numeric column with missing entry at index 1 and
non-missing entries 1, 3, 7, and a categorical column (over ℕ) with missing
entry at index 1 and non-missing entries 5, 5, 9. -/
theorem c4_witness :
    (medianImpute [some 1, none, some 3, some 7])[1]? =
        some (listMedian (someEntries [some 1, none, some 3, some 7])) ∧
      ∃ m, mostFrequent (someEntries [some (5 : ℕ), none, some 5, some 9]) = some m ∧
        (modeImpute [some (5 : ℕ), none, some 5, some 9])[1]? = some m ∧
        ∀ c ∈ someEntries [some (5 : ℕ), none, some 5, some 9],
          (someEntries [some (5 : ℕ), none, some 5, some 9]).count c ≤
            (someEntries [some (5 : ℕ), none, some 5, some 9]).count m :=
  c4_imputation [some 1, none, some 3, some 7] [some 5, none, some 5, some 9] 1 1
    (by decide) (by decide) (by decide) (by decide)

/-- Claim C5: `num_pipeline` (median imputation followed by standard scaling)
maps each numeric column it is fitted on to a column of mean 0 and population
variance 1 (equivalently, standard deviation 1), whenever the fitted scale σ
is nonzero — which is exactly the case where the imputed values are not all
equal. -/
theorem c5_standard_scaling (col : List (Option ℚ)) (σ : ℚ)
    (hσ2 : σ ^ 2 = popVariance (medianImpute col)) (hσ : σ ≠ 0) :
    listMean (numPipeline col σ) = 0 ∧ popVariance (numPipeline col σ) = 1 := by
  simp only [numPipeline]
  set xs := medianImpute col with hxs
  have hn : (xs.length : ℚ) ≠ 0 := by
    intro h0
    have hlen : xs.length = 0 := by exact_mod_cast h0
    have hnil : xs = [] := List.length_eq_zero.mp hlen
    rw [hnil] at hσ2
    simp [popVariance, listMean] at hσ2
    exact hσ hσ2
  have hmean : listMean (standardScaleWith xs σ) = 0 := by
    rw [standardScaleWith, listMean, sum_map_sub_div, List.length_map, listMean,
      mul_div_cancel₀ _ hn, sub_self, zero_div, zero_div]
  refine ⟨hmean, ?_⟩
  have hS : (xs.map fun x => (x - listMean xs) ^ 2).sum ≠ 0 := by
    intro h0
    apply hσ
    apply sq_eq_zero_iff.mp
    rw [hσ2, popVariance, h0, zero_div]
  rw [popVariance, hmean]
  simp only [sub_zero, standardScaleWith, List.map_map, Function.comp_def,
    List.length_map]
  rw [sum_map_sq_div, hσ2, popVariance]
  field_simp

/-- Witness for C5: the column with raw values 0 and 4 has imputed values 0
and 4, mean 2 and population variance 4, so the fitted scale is 2; the scaled
column has mean 0 and population variance 1. -/
theorem c5_witness :
    listMean (numPipeline [some 0, some 4] 2) = 0 ∧
      popVariance (numPipeline [some 0, some 4] 2) = 1 :=
  c5_standard_scaling [some 0, some 4] 2
    (by norm_num [popVariance, medianImpute, listMean, someEntries]) two_ne_zero

/-- Claim C6: one-hot encoding against the categories fitted from a column
(its distinct values in ascending order): a value among the fitted categories
is encoded as the vector that is 1 at the position of that category and 0
everywhere else, and a value not seen during fitting is encoded as the
all-zero vector rather than causing an error. -/
theorem c6_one_hot {α : Type} [LinearOrder α] (xs : List α) (v : α) :
    (v ∈ fitCategories xs →
      oneHot (fitCategories xs) v =
        (List.replicate (fitCategories xs).length 0).set
          ((fitCategories xs).indexOf v) 1) ∧
    (v ∉ fitCategories xs →
      oneHot (fitCategories xs) v = List.replicate (fitCategories xs).length 0) :=
  ⟨fun h => oneHot_of_mem (fitCategories xs) v (fitCategories_nodup xs) h,
    fun h => oneHot_of_not_mem (fitCategories xs) v h⟩

/-- Witness for C6: fitting on the column 2, 0, 2, 1 (over ℕ) gives the
categories 0, 1, 2, and the value 1 is encoded as the indicator vector at its
category position. -/
theorem c6_witness :
    oneHot (fitCategories [2, 0, 2, 1]) 1 =
      (List.replicate (fitCategories [2, 0, 2, 1]).length (0 : ℚ)).set
        ((fitCategories [2, 0, 2, 1]).indexOf 1) 1 :=
  (c6_one_hot [2, 0, 2, 1] 1).1 (by decide)

end TrafficAccident

namespace TrafficAccident

/-- A derived date-component column is entirely missing exactly when no date of
the column parses. -/
lemma dateColumn_allNone (parse : String → Option CrashDate) (f : CrashDate → ℚ)
    (dates : List String) :
    ((dates.map fun s => (toDatetimeCoerce parse s).map f).all Option.isNone) =
      dates.all fun s => (parse s).isNone := by
  induction dates with
  | nil => rfl
  | cons d ds ih =>
    simp only [toDatetimeCoerce] at ih ⊢
    simp only [List.map_cons, List.all_cons, ih]
    cases parse d <;> rfl

/-- Claim C10: for a row whose crash_date does not parse, the coerced date is
missing rather than an error, the derived crash_year, crash_month and
crash_day_of_week entries of that row are missing, and median imputation of
each derived column fills that entry with the median of the non-missing
entries of the column. -/
theorem c10_date_coercion (parse : String → Option CrashDate)
    (dates : List String) (i : Nat) (s : String)
    (hs : dates[i]? = some s) (hbad : parse s = none)
    (hsome : (dates.all fun t => (parse t).isNone) = false) :
    (crashYearColumn parse dates)[i]? = some none ∧
      (crashMonthColumn parse dates)[i]? = some none ∧
      (crashDayOfWeekColumn parse dates)[i]? = some none ∧
      (medianImpute (crashYearColumn parse dates))[i]? =
        some (listMedian (someEntries (crashYearColumn parse dates))) ∧
      (medianImpute (crashMonthColumn parse dates))[i]? =
        some (listMedian (someEntries (crashMonthColumn parse dates))) ∧
      (medianImpute (crashDayOfWeekColumn parse dates))[i]? =
        some (listMedian (someEntries (crashDayOfWeekColumn parse dates))) := by
  have hy : (crashYearColumn parse dates)[i]? = some none := by
    rw [crashYearColumn, List.getElem?_map, hs]
    simp [toDatetimeCoerce, hbad]
  have hm : (crashMonthColumn parse dates)[i]? = some none := by
    rw [crashMonthColumn, List.getElem?_map, hs]
    simp [toDatetimeCoerce, hbad]
  have hd : (crashDayOfWeekColumn parse dates)[i]? = some none := by
    rw [crashDayOfWeekColumn, List.getElem?_map, hs]
    simp [toDatetimeCoerce, hbad]
  have him : ∀ col : List (Option ℚ), col.all Option.isNone = false →
      col[i]? = some none →
      (medianImpute col)[i]? = some (listMedian (someEntries col)) := by
    intro col hall hcol
    rw [medianImpute, if_neg (by simp [hall]), List.getElem?_map, hcol]
    rfl
  refine ⟨hy, hm, hd,
    him _ ((dateColumn_allNone parse CrashDate.year dates).trans hsome) hy,
    him _ ((dateColumn_allNone parse CrashDate.month dates).trans hsome) hm,
    him _ ((dateColumn_allNone parse CrashDate.dayOfWeek dates).trans hsome) hd⟩

/-- Witness for C10: a two-row date column where the first entry does not
parse and the second parses to the date with year 2020, month 1, day of week
2 under the concrete parser `exampleParse`. -/
theorem c10_witness :
    (crashYearColumn exampleParse ["oops", "2020-01-01"])[0]? = some none ∧
      (crashMonthColumn exampleParse ["oops", "2020-01-01"])[0]? = some none ∧
      (crashDayOfWeekColumn exampleParse ["oops", "2020-01-01"])[0]? = some none ∧
      (medianImpute (crashYearColumn exampleParse ["oops", "2020-01-01"]))[0]? =
        some (listMedian (someEntries (crashYearColumn exampleParse ["oops", "2020-01-01"]))) ∧
      (medianImpute (crashMonthColumn exampleParse ["oops", "2020-01-01"]))[0]? =
        some (listMedian (someEntries (crashMonthColumn exampleParse ["oops", "2020-01-01"]))) ∧
      (medianImpute (crashDayOfWeekColumn exampleParse ["oops", "2020-01-01"]))[0]? =
        some (listMedian
          (someEntries (crashDayOfWeekColumn exampleParse ["oops", "2020-01-01"]))) :=
  c10_date_coercion exampleParse ["oops", "2020-01-01"] 0 "oops"
    (by decide) (by decide) (by decide)

end TrafficAccident
